import Mathlib

/-!
Verification development for the OpenFlight database decoder
(`OpenFlight.py`).  The Python source is shallowly embedded: the byte
stream becomes an explicit cursor over a list of byte values, each
decoder method becomes a function from (state, cursor) to
`Except Err (state, cursor)`, and Python exceptions become the `Err`
error type.  Python list objects (which are shared by reference) are
modelled by an explicit heap of cells addressed by natural numbers, so
that the aliasing behaviour of instance references is expressible.
IEEE float/double fields are never inspected by any validated property,
so the float readers return the raw bytes.
-/

namespace OFlt

/-- Python exceptions raised by the decoder, by kind and message. -/
inductive Err where
  | exc (msg : String)
  | ioError (msg : String)
  | nameError (missingName : String)
  | attributeError (missingAttr : String)
  | structError
  | indexError
  | keyError
  | typeError
  | fuelExhausted
deriving DecidableEq

deriving instance DecidableEq for Except

/-- The read cursor over the open file: the full byte contents plus the
current file position (`self.f` in the source). -/
structure Cursor where
  data : List Nat
  pos : Nat
deriving DecidableEq

/-- Python `self.f.read(n)` for `n ≥ 0`: returns up to `n` bytes from the
current position (fewer near end of file, without error) and advances the
position by the number of bytes actually read. -/
def fread (n : Nat) (c : Cursor) : List Nat × Cursor :=
  let bs := (c.data.drop c.pos).take n
  (bs, ⟨c.data, c.pos + bs.length⟩)

/-- Python `self.f.read(n)` for a possibly negative `n`: a negative count
reads the remainder of the file (used by `_readChunk` when a declared
record length is below 4). -/
def freadInt (n : Int) (c : Cursor) : List Nat × Cursor :=
  if n < 0 then
    let bs := c.data.drop c.pos
    (bs, ⟨c.data, c.pos + bs.length⟩)
  else fread n.toNat c

/-- Python `self.f.seek(n, os.SEEK_CUR)` (the `_skip` helper in stream
mode): moves the position relative to the current one; seeking before the
start of the file is an error. -/
def fseekCur (n : Int) (c : Cursor) : Except Err Cursor :=
  let p : Int := (c.pos : Int) + n
  if p < 0 then .error (.ioError "negative seek") else .ok ⟨c.data, p.toNat⟩

/-- Python `s.replace('\x00', '')` applied to a byte string: removes every
NUL byte, wherever it occurs. -/
def pyRemoveNul : List Nat → List Nat
  | [] => []
  | b :: r => if b = 0 then pyRemoveNul r else b :: pyRemoveNul r

/-- `_readString(size)` in stream mode: `struct.unpack` demands exactly
`size` bytes, then all NUL bytes are removed by `.replace('\x00', '')`. -/
def readString (size : Nat) (c : Cursor) : Except Err (List Nat × Cursor) :=
  let (bs, c') := fread size c
  if bs.length = size then .ok (pyRemoveNul bs, c') else .error .structError

/-- `_readUShort` in stream mode: two bytes, big endian, unsigned. -/
def readUShort (c : Cursor) : Except Err (Nat × Cursor) :=
  let (bs, c') := fread 2 c
  match bs with
  | [b0, b1] => .ok (256 * b0 + b1, c')
  | _ => .error .structError

/-- Two's-complement reinterpretation of a 16-bit unsigned value. -/
def toSigned16 (u : Nat) : Int :=
  if u < 32768 then (u : Int) else (u : Int) - 65536

/-- `_readShort` in stream mode: two bytes, big endian, signed. -/
def readShort (c : Cursor) : Except Err (Int × Cursor) :=
  match readUShort c with
  | .ok (u, c') => .ok (toSigned16 u, c')
  | .error e => .error e

/-- `_readUInt` in stream mode: four bytes, big endian, unsigned. -/
def readUInt (c : Cursor) : Except Err (Nat × Cursor) :=
  let (bs, c') := fread 4 c
  match bs with
  | [b0, b1, b2, b3] => .ok (256 * (256 * (256 * b0 + b1) + b2) + b3, c')
  | _ => .error .structError

/-- Two's-complement reinterpretation of a 32-bit unsigned value. -/
def toSigned32 (u : Nat) : Int :=
  if u < 2147483648 then (u : Int) else (u : Int) - 4294967296

/-- `_readInt` in stream mode: four bytes, big endian, signed. -/
def readInt (c : Cursor) : Except Err (Int × Cursor) :=
  match readUInt c with
  | .ok (u, c') => .ok (toSigned32 u, c')
  | .error e => .error e

/-- `_readBool` in stream mode: one byte; `struct.unpack('>?')` maps any
nonzero byte to True. -/
def readBool (c : Cursor) : Except Err (Bool × Cursor) :=
  let (bs, c') := fread 1 c
  match bs with
  | [b] => .ok (decide (b ≠ 0), c')
  | _ => .error .structError

/-- `_readUChar` in stream mode: one byte. -/
def readUChar (c : Cursor) : Except Err (Nat × Cursor) :=
  let (bs, c') := fread 1 c
  match bs with
  | [b] => .ok (b, c')
  | _ => .error .structError

/-- `_readDouble` in stream mode: eight bytes.  No validated property
inspects the IEEE value, so the raw bytes are retained. -/
def readDouble (c : Cursor) : Except Err (List Nat × Cursor) :=
  let (bs, c') := fread 8 c
  if bs.length = 8 then .ok (bs, c') else .error .structError

/-- `_readFloat` in stream mode: four bytes, raw (see `readDouble`). -/
def readFloat (c : Cursor) : Except Err (List Nat × Cursor) :=
  let (bs, c') := fread 4 c
  if bs.length = 4 then .ok (bs, c') else .error .structError

/-- A primitive Python value stored in a decoded record dictionary. -/
inductive PyVal where
  | int (i : Int)
  | nat (n : Nat)
  | str (s : List Nat)
  | bool (b : Bool)
  | raw (bs : List Nat)
  | none
deriving DecidableEq

/-- A node appended through `_addObject`.  Decoded record dictionaries
(and other non-list payloads) are `obj`; a Python list object is
represented by the address of its heap cell, so that the aliasing of
shared list objects (instances) is explicit. -/
inductive Node where
  | obj (fields : List (String × PyVal))
  | listRef (addr : Nat)
deriving DecidableEq

/-- `self._RecordType`: which of the two record containers is active. -/
inductive RecType where
  | tree
  | instances
deriving DecidableEq

/-- An entry in the cached external-reference map (`Records['External']`).
A texture-palette entry holds the texture-attribute parse result; an
external-reference entry holds the `Records` of a recursively parsed
database, abstracted to an opaque marker keyed by its path. -/
inductive TexResult where
  | sentinelMissing
  | parsed (attrPath : List Nat)
deriving DecidableEq

inductive ExtVal where
  | tex (t : TexResult)
  | subDb (marker : List Nat)
deriving DecidableEq

/-- Decoder-visible state of one `OpenFlight` document.  `heap` models the
Python list objects: cell 0 is `Records["Tree"]`, and every nested or
instance list is a further cell; `instances` is `Records["Instances"]`
(instance id to list object); `external` is the `Records['External']`
cache of the root-most document. -/
structure OFState where
  heap : List (List Node)
  instances : List (Nat × Nat)
  external : List (List Nat × ExtVal)
  textures : List Node
  recordType : RecType
  treeStack : List Nat
  instanceStack : List Nat
  previousOpCode : Int
  fileFormat : Int
deriving DecidableEq

/-- Association-list lookup used for `Records["Instances"]`. -/
def alookup (k : Nat) : List (Nat × Nat) → Option Nat
  | [] => Option.none
  | (k', v) :: r => if k' = k then some v else alookup k r

/-- The walk `node = node[idx]` performed by `_addObject` and `_opPush`:
follow a stack of indices from a starting list cell; each step must land
on a list object (stepping into a record dictionary or past the end of a
list raises in Python, modelled as walk failure). -/
def walk (heap : List (List Node)) : Nat → List Nat → Option Nat
  | a, [] => some a
  | a, i :: rest =>
    match heap[a]? with
    | some cell =>
      match cell[i]? with
      | some (Node.listRef b) => walk heap b rest
      | _ => Option.none
    | Option.none => Option.none

/-- The list cell addressed by the active stack in the active mode: the
insertion point used by `_addObject`.  In `Instances` mode the first
stack element is the instance id (a key of `Records["Instances"]`); with
an empty instance stack the insertion target would be the dictionary
itself, whose lack of `append` raises in Python. -/
def insertionCell (s : OFState) : Option Nat :=
  match s.recordType with
  | .tree => walk s.heap 0 s.treeStack
  | .instances =>
    match s.instanceStack with
    | [] => Option.none
    | id :: rest =>
      match alookup id s.instances with
      | some a => walk s.heap a rest
      | Option.none => Option.none

/-- `_addObject`: append a node to the list cell at the insertion point. -/
def addObject (s : OFState) (n : Node) : Except Err OFState :=
  match insertionCell s with
  | Option.none => .error (.exc "addObject failed")
  | some a =>
    match s.heap[a]? with
    | some cell => .ok { s with heap := s.heap.set a (cell ++ [n]) }
    | Option.none => .error (.exc "addObject failed")

/-- `_opPush` (opcode 10): walk to the current insertion cell, record its
current length on the active stack, and append a fresh empty list. -/
def opPush (s : OFState) (c : Cursor) : Except Err (OFState × Cursor) :=
  match s.recordType with
  | .tree =>
    match walk s.heap 0 s.treeStack with
    | Option.none => .error (.exc "push walk failed")
    | some a =>
      match s.heap[a]? with
      | Option.none => .error (.exc "push walk failed")
      | some cell =>
        let fresh := s.heap.length
        .ok ({ s with
                treeStack := s.treeStack ++ [cell.length],
                heap := (s.heap.set a (cell ++ [Node.listRef fresh])) ++ [[]] }, c)
  | .instances =>
    match s.instanceStack with
    | [] => .error (.exc "push walk failed")
    | id :: rest =>
      match alookup id s.instances with
      | Option.none => .error (.exc "push walk failed")
      | some a0 =>
        match walk s.heap a0 rest with
        | Option.none => .error (.exc "push walk failed")
        | some a =>
          match s.heap[a]? with
          | Option.none => .error (.exc "push walk failed")
          | some cell =>
            let fresh := s.heap.length
            .ok ({ s with
                    instanceStack := s.instanceStack ++ [cell.length],
                    heap := (s.heap.set a (cell ++ [Node.listRef fresh])) ++ [[]] }, c)

/-- `_opPop` (opcode 11).  In `Tree` mode an empty tree stack is an
explicit error; in `Instances` mode the unguarded `list.pop()` on an
empty list raises IndexError, and a pop that leaves the instance stack at
depth 1 clears it and switches back to `Tree` mode. -/
def opPop (s : OFState) (c : Cursor) : Except Err (OFState × Cursor) :=
  match s.recordType with
  | .tree =>
    if s.treeStack.length = 0 then
      .error (.exc "Tree stack is empty: nothing to pop.")
    else .ok ({ s with treeStack := s.treeStack.dropLast }, c)
  | .instances =>
    if s.instanceStack.isEmpty then .error .indexError
    else
      let st := s.instanceStack.dropLast
      if st.length = 1 then
        .ok ({ s with recordType := .tree, instanceStack := [] }, c)
      else .ok ({ s with instanceStack := st }, c)

/-- `_opInstRef` (opcode 61): read the instance number; referencing an
undefined instance is an error; otherwise the very list object stored in
`Records["Instances"]` (the same heap cell, no copy) is appended at the
current insertion point. -/
def opInstRef (s : OFState) (c : Cursor) : Except Err (OFState × Cursor) := do
  let (k, c) ← readUInt c
  match alookup k s.instances with
  | Option.none => .error (.exc "Could not find an instance to reference")
  | some a => do
    let s' ← addObject s (Node.listRef a)
    .ok (s', c)

/-- `_opInstDef` (opcode 62): switch to `Instances` mode, read the
instance number, reject duplicates, create the fresh empty instance list
and push the id onto the instance stack. -/
def opInstDef (s : OFState) (c : Cursor) : Except Err (OFState × Cursor) := do
  let s := { s with recordType := RecType.instances }
  let (k, c) ← readUInt c
  if (alookup k s.instances).isSome then
    .error (.exc "Instance definition number has already been declared.")
  else
    let fresh := s.heap.length
    .ok ({ s with
            heap := s.heap ++ [[]],
            instances := s.instances ++ [(k, fresh)],
            instanceStack := s.instanceStack ++ [k] }, c)

/-- `_opHeader` (opcode 1): a header inside the record stream is always an
error. -/
def opHeader (_s : OFState) (_c : Cursor) : Except Err (OFState × Cursor) :=
  .error (.exc "Another header found in file.")

/-- `_opReserved`: does nothing. -/
def opReserved (s : OFState) (c : Cursor) : Except Err (OFState × Cursor) :=
  .ok (s, c)

/-- `_opLoD` (opcode 73).  Faithful to the source: after the 8-byte ASCII
ID the source evaluates `self.read.seek(4, os.SEEK_CUR)`, but the object
has no attribute `read` (elsewhere the code uses `self._skip`), so an
AttributeError is raised; the remaining field reads of the source are
unreachable. -/
def opLoD (_s : OFState) (c : Cursor) : Except Err (OFState × Cursor) := do
  let (_asciiID, _c) ← readString 8 c
  .error (.attributeError "read")

/-- The `_OpCodes` registry: opcode to (expected total record size or
variable, friendly name).  The decoder function component of the source
tuples is dispatched separately (`opDecoder`). -/
def OpCodes : List (Int × Option Nat × String) :=
  [ (0, Option.none, "padding"),
    (1, some 324, "header"),
    (2, some 44, "group"),
    (4, some 28, "object"),
    (5, some 80, "face"),
    (10, some 4, "push"),
    (11, some 4, "pop"),
    (14, some 384, "degree of freedom"),
    (19, some 4, "push subface"),
    (20, some 4, "pop subface"),
    (21, some 24, "push extension"),
    (22, some 24, "pop extension"),
    (23, Option.none, "continuation"),
    (31, Option.none, "comment"),
    (32, Option.none, "colour palette"),
    (33, Option.none, "long ID"),
    (49, some 68, "matrix"),
    (50, some 16, "vector"),
    (52, Option.none, "multitexture"),
    (53, some 8, "UV list"),
    (55, some 48, "binary separating plane"),
    (60, some 8, "replicate"),
    (61, some 8, "instance reference"),
    (62, some 8, "instance definition"),
    (63, some 216, "external reference"),
    (64, some 216, "texture palette"),
    (67, some 8, "vertex palette"),
    (68, some 40, "vertex with colour"),
    (69, some 56, "vertex with colour and normal"),
    (70, some 64, "vertex with colour, normal and UV"),
    (71, some 48, "vertex with colour and UV"),
    (72, Option.none, "vertex list"),
    (73, some 80, "level of detail"),
    (74, some 52, "bounding box"),
    (76, some 64, "rotate about edge"),
    (78, some 56, "translate"),
    (79, some 48, "scale"),
    (80, some 48, "rotate about point"),
    (81, some 96, "rotate and/or scale to point"),
    (82, some 152, "put"),
    (83, some 4008, "eyepoint and trackplane palette"),
    (84, some 84, "mesh"),
    (85, Option.none, "local vertex pool"),
    (86, Option.none, "mesh primitive"),
    (87, some 12, "road segment"),
    (88, some 176, "road zone"),
    (89, Option.none, "morph vertex list"),
    (90, Option.none, "linkage palette"),
    (91, some 88, "sound"),
    (92, some 632, "road path"),
    (93, Option.none, "sound palette"),
    (94, some 68, "general matrix"),
    (95, some 320, "text"),
    (96, Option.none, "switch"),
    (97, some 12, "line style palette"),
    (98, some 280, "clip region"),
    (100, Option.none, "extension"),
    (101, some 64, "light source"),
    (102, some 240, "light source palette"),
    (103, Option.none, "reserved"),
    (104, Option.none, "reserved"),
    (105, some 16, "bounding sphere"),
    (106, some 24, "bounding cylinder"),
    (107, Option.none, "bounding convex hull"),
    (108, some 32, "bounding volume centre"),
    (109, some 32, "bounding volume orientation"),
    (110, Option.none, "reserved"),
    (111, some 156, "light point"),
    (112, Option.none, "texture mapping palette"),
    (113, some 84, "material palette"),
    (114, Option.none, "name table"),
    (115, some 80, "continuously adaptive terrain (CAT)"),
    (116, Option.none, "CAT data"),
    (117, Option.none, "reserved"),
    (118, Option.none, "reserved"),
    (119, Option.none, "bounding histogram"),
    (120, Option.none, "reserved"),
    (121, Option.none, "reserved"),
    (122, some 8, "push attribute"),
    (123, some 4, "pop attribute"),
    (124, Option.none, "reserved"),
    (125, Option.none, "reserved"),
    (126, Option.none, "curve"),
    (127, some 168, "road construction"),
    (128, some 412, "light point appearance palette"),
    (129, Option.none, "light point animation palette"),
    (130, some 28, "indexed light point"),
    (131, some 24, "light point system"),
    (132, Option.none, "indexed string"),
    (133, Option.none, "shader palette"),
    (134, Option.none, "reserved"),
    (135, some 28, "extended material header"),
    (136, some 48, "extended material ambient"),
    (137, some 48, "extended material diffuse"),
    (138, some 48, "extended material specular"),
    (139, some 48, "extended material emissive"),
    (140, some 44, "extended material alpha"),
    (141, some 16, "extended material light map"),
    (142, some 12, "extended material normal map"),
    (143, some 20, "extended material bump map"),
    (144, Option.none, "reserved"),
    (145, some 16, "extended material shadow map"),
    (146, Option.none, "reserved"),
    (147, some 32, "extended material reflection map"),
    (148, some 48, "extension GUID palette"),
    (149, some 12, "extension field boolean"),
    (150, some 12, "extension field integer"),
    (151, some 12, "extension field float"),
    (152, some 16, "extension field double"),
    (153, Option.none, "extension field string"),
    (154, Option.none, "extension field XML string record") ]

/-- Registry lookup: `self._OpCodes[k]`, as size and friendly name. -/
def opCodeEntry (tbl : List (Int × Option Nat × String)) (k : Int) :
    Option (Option Nat × String) :=
  (tbl.find? (fun e => e.1 == k)).map (·.2)

/-- `self._ObsoleteOpCodes`. -/
def ObsoleteOpCodes : List Int :=
  [3, 6, 7, 8, 9, 12, 13, 16, 17, 40, 41, 42, 43, 44, 45, 46, 47, 48, 51,
   65, 66, 77]

/-- The revision-adapter size patch applied by `_check_header` for
formats in [1550, 1580): `self._OpCodes.update(newSizes)`. -/
def newSizes1550 : List (Int × Option Nat × String) :=
  [ (2, some 32, "group"),
    (69, some 52, "vertex with colour and normal"),
    (70, some 60, "vertex with colour, normal and UV"),
    (79, some 44, "scale") ]

/-- Python `dict.update`: existing keys are replaced in place, new keys
appended in order. -/
def dictUpdate (tbl upd : List (Int × Option Nat × String)) :
    List (Int × Option Nat × String) :=
  (tbl.map (fun e =>
    match upd.find? (fun u => u.1 == e.1) with
    | some u => u
    | Option.none => e)) ++
  upd.filter (fun u => (tbl.find? (fun e => e.1 == u.1)).isNone)

/-- `_opContinuation` (opcode 23): a freestanding continuation record is
an error naming the previous record's friendly name (fetched from the
registry; a previous opcode missing from the registry would be a Python
KeyError). -/
def opContinuation (tbl : List (Int × Option Nat × String)) (s : OFState)
    (_c : Cursor) : Except Err (OFState × Cursor) :=
  match opCodeEntry tbl s.previousOpCode with
  | some e =>
    .error (.exc ("Unexpected continuation record. This should have been handled by the "
                  ++ e.2 ++ " function."))
  | Option.none => .error .keyError

/-- The while-loop of `_readChunk`: peek the next 2-byte opcode; while it
is the continuation opcode 23, read that record's length and append its
body; finally rewind the 2-byte peek.  Recursion is bounded by explicit
fuel; `readChunk` supplies more fuel than any input can consume. -/
def readChunkLoop : Nat → List Nat → Cursor → Except Err (List Nat × Cursor)
  | 0, _, _ => .error .fuelExhausted
  | fuel + 1, acc, c => do
    let (op, c) ← readUShort c
    if op = 23 then do
      let (len, c) ← readUShort c
      let (body, c) := freadInt ((len : Int) - 4) c
      readChunkLoop fuel (acc ++ body) c
    else do
      let c ← fseekCur (-2) c
      .ok (acc, c)

/-- `_readChunk`: read the primary record's declared length and body,
then absorb every immediately following continuation record, leaving the
stream position at the start of the next real record.  Returns the
reassembled chunk (`self._Chunk`). -/
def readChunk (c : Cursor) : Except Err (List Nat × Cursor) := do
  let (len, c) ← readUShort c
  let (body, c) := freadInt ((len : Int) - 4) c
  readChunkLoop (c.data.length + 1) body c

/-- The decoder dispatched for an opcode (`self._OpCodes[iRead][0]`).
The decoders exercised by the verified properties are embedded
faithfully above; the remaining record decoders are not exercised by any
theorem in this file and dispatch to a distinguished error so that no
property can silently depend on them. -/
def opDecoder (tbl : List (Int × Option Nat × String)) (k : Int) :
    OFState → Cursor → Except Err (OFState × Cursor) :=
  if k = 0 ∨ k = 103 ∨ k = 104 ∨ k = 110 ∨ k = 117 ∨ k = 118 ∨ k = 120 ∨
     k = 121 ∨ k = 124 ∨ k = 125 ∨ k = 134 ∨ k = 144 ∨ k = 146 then
    opReserved
  else if k = 1 then opHeader
  else if k = 10 then opPush
  else if k = 11 then opPop
  else if k = 23 then opContinuation tbl
  else if k = 61 then opInstRef
  else if k = 62 then opInstDef
  else if k = 73 then opLoD
  else fun _ _ => .error (.exc "decoder not embedded")

/-- Outcome of the dispatch loop inside `ReadFile`'s `try`. -/
inductive PassOutcome where
  | finished
  | aborted (e : Err)
deriving DecidableEq

/-- The record-dispatch loop of `ReadFile`: read a 2-byte opcode (clean
EOF ends the pass), reject obsolete and unknown opcodes, check the
declared length of fixed-size records against the registry, invoke the
decoder and remember the opcode as `_PreviousOpCode`.  Any raised
exception aborts the pass; the abort carries the state at that point.
Fuel bounds the recursion; every iteration consumes at least two bytes,
so `ReadFileModel` supplies sufficient fuel. -/
def runLoop (tbl : List (Int × Option Nat × String)) :
    Nat → OFState → Cursor → PassOutcome × OFState × Cursor
  | 0, s, c => (.aborted .fuelExhausted, s, c)
  | fuel + 1, s, c =>
    let (bs, c1) := fread 2 c
    match bs with
    | [] => (.finished, s, c1)
    | [b0, b1] =>
      let op := toSigned16 (256 * b0 + b1)
      if ObsoleteOpCodes.contains op then
        (.aborted (.exc "Unable to continue. File uses obsolete codes."), s, c1)
      else
        match opCodeEntry tbl op with
        | Option.none =>
          (.aborted (.exc "Unable to continue OpenFlight Opcode not recognised."), s, c1)
        | some (sizeOpt, name) =>
          match sizeOpt with
          | some n =>
            match readUShort c1 with
            | .error e => (.aborted e, s, c1)
            | .ok (len, c2) =>
              if len ≠ n then
                (.aborted (.exc ("Unexpected " ++ name ++ " record length")), s, c2)
              else
                match opDecoder tbl op s c2 with
                | .error e => (.aborted e, s, c2)
                | .ok (s', c') =>
                  runLoop tbl fuel { s' with previousOpCode := op } c'
          | Option.none =>
            match opDecoder tbl op s c1 with
            | .error e => (.aborted e, s, c1)
            | .ok (s', c') =>
              runLoop tbl fuel { s' with previousOpCode := op } c'
    | _ => (.aborted .structError, s, c1)

/-- What `ReadFile` leaves behind after the dispatch pass: whether the
call returned normally (it always does: the `except BaseException`
handler swallows every error after printing it), whether the `finally`
block closed the handle (it always runs), what error - if any -
propagates to the caller, and the stored `self.e`. -/
structure ReadFileResult where
  returnedNormally : Bool
  handleClosed : Bool
  raised : Option Err
  e : Option Err
  passFinished : Bool
  state : OFState
  cursor : Cursor
deriving DecidableEq

/-- The `try/except/finally` wrapper of `ReadFile` around the dispatch
loop: a finished pass returns normally with no stored error; an aborted
pass prints the failing opcode, stores the exception in `self.e`, closes
the handle, and still returns normally - nothing is re-raised. -/
def ReadFileModel (tbl : List (Int × Option Nat × String)) (fuel : Nat)
    (s : OFState) (c : Cursor) : ReadFileResult :=
  match runLoop tbl fuel s c with
  | (.finished, s', c') =>
    { returnedNormally := true, handleClosed := true, raised := Option.none,
      e := Option.none, passFinished := true, state := s', cursor := c' }
  | (.aborted err, s', c') =>
    { returnedNormally := true, handleClosed := true, raised := Option.none,
      e := some err, passFinished := false, state := s', cursor := c' }

/-- `self._OpenFlightFormats`: the known format-revision enumeration. -/
def OpenFlightFormats : List Int :=
  [11, 12, 14, 1420, 1510, 1540, 1550, 1560, 1570, 1580, 1600, 1610, 1620,
   1630, 1640]

/-- `_check_filesize`: the total file size must be a multiple of 4. -/
def check_filesize (fileSize : Nat) : Bool :=
  fileSize % 4 == 0

/-- Header metadata produced by a successful `_check_header` run, with
the opcode registry as possibly patched by the revision adapter. -/
structure HeaderInfo where
  dbName : List Nat
  fileFormat : Int
  opTable : List (Int × Option Nat × String)
deriving DecidableEq

/-- The tail of `_check_header` from the database-name read onward: the
header field decode with its enumeration checks and the
revision-dependent ending - formats ≥ 1580 read the consistent modern
tail, formats in [1550, 1580) skip nothing and patch the registry record
sizes, and earlier formats stop after the Adaptive/Curve node ids. -/
def check_header_body (c : Cursor) : Except Err (HeaderInfo × Cursor) := do
  let (dbName, c) ← readString 8 c
  let (fileFormat, c) ← readInt c
  if ¬ OpenFlightFormats.contains fileFormat then
    .error (.exc "Unrecognised OpenFlight file format revision number.") else do
  let c ← fseekCur 4 c          -- edit revision number
  let (_lastRevision, c) ← readString 32 c
  let (_nidGroup, c) ← readUShort c
  let (_nidLOD, c) ← readUShort c
  let (_nidObject, c) ← readUShort c
  let (_nidFace, c) ← readUShort c
  let (unitMult, c) ← readUShort c
  if unitMult ≠ 1 then .error (.exc "Unexpected value for unit multiplier.") else do
  let (units, c) ← readUChar c
  -- Coords = {0: m, 1: km, 4: ft, 5: in, 8: nmi}
  if ¬ [0, 1, 4, 5, 8].contains units then
    .error (.exc "Could not interpret coordinate units.") else do
  let (_white, c) ← readBool c
  let (_flags, c) ← readUInt c
  let c ← fseekCur 24 c         -- reserved
  let (projection, c) ← readInt c
  -- Projections keyed 0..6
  if ¬ [0, 1, 2, 3, 4, 5, 6].contains projection then
    .error (.exc "Could not interpret projection type.") else do
  let c ← fseekCur 28 c         -- reserved
  let (_nidDOF, c) ← readUShort c
  let (vstore, c) ← readUShort c
  if vstore ≠ 1 then .error (.exc "Unexpected vertex storage type.") else do
  let (_dbOrigin, c) ← readInt c  -- DBOrigin.get(..., Unknown): unchecked
  let (_swx, c) ← readDouble c
  let (_swy, c) ← readDouble c
  let (_dx, c) ← readDouble c
  let (_dy, c) ← readDouble c
  let (_nidSound, c) ← readUShort c
  let (_nidPath, c) ← readUShort c
  let c ← fseekCur 8 c
  let (_nidClip, c) ← readUShort c
  let (_nidText, c) ← readUShort c
  let (_nidBSP, c) ← readUShort c
  let (_nidSwitch, c) ← readUShort c
  let c ← fseekCur 4 c
  let (_swLat, c) ← readDouble c
  let (_swLon, c) ← readDouble c
  let (_neLat, c) ← readDouble c
  let (_neLon, c) ← readDouble c
  let (_origLat, c) ← readDouble c
  let (_origLon, c) ← readDouble c
  let (_lamLat, c) ← readDouble c
  let (_lamLon, c) ← readDouble c
  let (_nidLightS, c) ← readUShort c
  let (_nidLightP, c) ← readUShort c
  let (_nidRoad, c) ← readUShort c
  let (_nidCAT, c) ← readUShort c
  let c ← fseekCur 8 c          -- reserved
  let (ellipsoid, c) ← readInt c
  -- EllipsoidModel keyed {0,1,2,3,4,-1}
  if ¬ [0, 1, 2, 3, 4, -1].contains ellipsoid then
    .error (.exc "Unexpected Earth ellipsoid model type") else do
  let (_nidAdaptive, c) ← readUShort c
  let (_nidCurve, c) ← readUShort c
  if 1580 ≤ fileFormat then do
    let (_utmZone, c) ← readUShort c
    let c ← fseekCur 6 c
    let (_dz, c) ← readDouble c
    let (_radius, c) ← readDouble c
    let (_nidMesh, c) ← readUShort c
    let (_nidLPS, c) ← readUShort c
    let c ← fseekCur 4 c
    let (_earthMajor, c) ← readDouble c
    let (_earthMinor, c) ← readDouble c
    .ok ({ dbName := dbName, fileFormat := fileFormat, opTable := OpCodes }, c)
  else if 1550 ≤ fileFormat then do
    let c ← fseekCur 0 c
    .ok ({ dbName := dbName, fileFormat := fileFormat,
           opTable := dictUpdate OpCodes newSizes1550 }, c)
  else
    .ok ({ dbName := dbName, fileFormat := fileFormat, opTable := OpCodes }, c)

/-- `_check_header` proper: validate the first record type, read the
declared record length, and continue with the field decode.  The
source's declared-length validation (`if recordLength !=
recognisableRecordSizes[...]`) is commented out, so the length value is
discarded. -/
def check_header (c : Cursor) : Except Err (HeaderInfo × Cursor) := do
  let (iRead, c) ← readShort c
  -- recognisableRecordTypes = [0x01]
  if iRead ≠ 1 then .error (.exc "Unidentifiable record type") else do
  let (_recordLength, c) ← readUShort c
  check_header_body c

/-- Byte values of a literal string (Python 2 strings are byte strings). -/
def strBytes (s : String) : List Nat :=
  s.toList.map Char.toNat

/-- Does `pat` match the start of `s`? (helper for substring tests). -/
def leadEq : List Nat → List Nat → Bool
  | [], _ => true
  | _ :: _, [] => false
  | a :: as, b :: bs => a == b && leadEq as bs

/-- Python `pat in s` substring containment (for nonempty `pat`). -/
def containsSub (s pat : List Nat) : Bool :=
  match s with
  | [] => pat.isEmpty
  | _ :: tail => leadEq pat s || containsSub tail pat

/-- Helper for `pyReplace`, structurally recursive on a fuel bound of at
least the input length (each step consumes at least one element, so the
fuel never runs out on the inputs `pyReplace` supplies). -/
def pyReplaceAux (pat rep : List Nat) : Nat → List Nat → List Nat
  | 0, s => s
  | _ + 1, [] => []
  | fuel + 1, ch :: tail =>
    match pat with
    | [] => ch :: tail
    | p :: pr =>
      if leadEq (p :: pr) (ch :: tail) then
        rep ++ pyReplaceAux pat rep fuel (tail.drop pr.length)
      else
        ch :: pyReplaceAux pat rep fuel tail

/-- Python `s.replace(pat, rep)` for a nonempty `pat`: leftmost,
non-overlapping.  (The empty-pattern case never occurs in the source and
is mapped to the identity.) -/
def pyReplace (pat rep s : List Nat) : List Nat :=
  pyReplaceAux pat rep s.length s

/-- Python `s.count(ch)` for a single byte. -/
def countByte (b : Nat) (s : List Nat) : Nat :=
  s.count b

/-- Python `s[-n:]`. -/
def lastN (n : Nat) (s : List Nat) : List Nat :=
  s.drop (s.length - n)

/-- `os.path.dirname` on a POSIX host: everything up to the last path
separator, with trailing separators stripped unless the head is all
separators. -/
def dirname (s : List Nat) : List Nat :=
  let rev := s.reverse
  let k := rev.findIdx (· == 47)
  if k = rev.length then []
  else
    let head := s.take (s.length - k)
    if head.all (· == 47) then head
    else (head.reverse.dropWhile (· == 47)).reverse

/-- `_cleanExternalFilename` on a POSIX host (`os.sep` is the forward
slash).  The file system is abstracted as the list `fs` of existing
paths and `dbFile` is `self.fileName`.  Faithful to the source,
including its failure modes: an empty name raises IndexError at
`fileName[0]`; a name containing a double backslash reaches
`path.exists(...)` where the bare name `path` is undefined (NameError);
the one-dot branch calls `os.path.dirname(self.fileName)`, a TypeError
when no file name is stored. -/
def cleanExternalFilename (fs : List (List Nat)) (dbFile : Option (List Nat))
    (isTexture : Bool) (fileName? : Option (List Nat)) :
    Except Err (List Nat) := do
  match fileName? with
  | Option.none =>
    if isTexture then .error (.ioError "No texture attribute filename specified.")
    else .error (.ioError "No external reference filename specified.")
  | some fn0 => do
    match fn0 with
    | [] => .error .indexError       -- fileName[0] on an empty string
    | ch0 :: _ => do
      let fn1 ←
        if ch0 = 46 then             -- leading dot: relative path
          match dbFile with
          | Option.none =>
            if isTexture then
              .error (.ioError "Attribute file uses relative path names. Unable to determine relative path.")
            else
              .error (.ioError "External reference filename uses relative path names. Unable to determine relative path.")
          | some db => .ok (dirname db ++ [47] ++ fn0)
        else .ok fn0
      if fs.contains fn1 then .ok fn1
      else do
        if containsSub fn1 [92, 92] then
          -- `if path.exists(fileName.replace('\\\\'), os.sep):` - the name
          -- `path` is undefined here (the module imports os, not os.path
          -- as path), so evaluating the condition raises NameError.
          .error (.nameError "path")
        else do
          let fn2 := pyReplace [92, 92] [47] fn1
          let fn3 := pyReplace [47, 47] [47] fn2
          let fn4 := pyReplace [47] [47] fn3
          let fn5 ←
            if countByte 46 fn4 = 1 then
              if countByte 46 (lastN 5 fn4) = 1 then
                match dbFile with
                | Option.none => .error Err.typeError   -- os.path.dirname(None)
                | some db =>
                  if fs.contains (dirname db ++ [47] ++ fn4) then
                    .ok (dirname db ++ [47] ++ fn4)
                  else
                    if isTexture then
                      .error (.ioError "Unable to translate texture filename with full path.")
                    else
                      .error (.ioError "Unable to translate external reference filename with full path.")
              else
                if isTexture then
                  .error (.ioError "Unable to translate texture filename with full path.")
                else
                  .error (.ioError "Unable to translate external reference filename with full path.")
            else .ok fn4
          if containsSub fn5 [92] ∧ ¬ fs.contains fn5 then
            if fs.contains (pyReplace [92] [47] fn5) then
              .ok (pyReplace [92] [47] fn5)
            else
              if isTexture then
                .error (.ioError "Unable to translate texture filename.")
              else
                .error (.ioError "Unable to translate external reference filename.")
          else .ok fn5

/-- `_checkTextureFile`: clean the texture path; a missing texture file
returns the skip marker when `skip_missing_textures` is set and is fatal
otherwise; for an existing texture file, the sibling attribute file
(`name + '.attr'`, else `name[:-3] + 'attr'`) must exist. -/
def checkTextureFile (fs : List (List Nat)) (skip : Bool)
    (dbFile : Option (List Nat)) (fileName? : Option (List Nat)) :
    Except Err (Option (List Nat)) := do
  let fn ← cleanExternalFilename fs dbFile true fileName?
  -- The source re-checks `if fileName is None` here; `_cleanExternalFilename`
  -- never returns None, so that branch is dead.
  if ¬ fs.contains fn then
    if skip then .ok Option.none
    else .error (.ioError "Could not find texture file.")
  else
    let attrFile := fn ++ strBytes ".attr"
    if fs.contains attrFile then .ok (some attrFile)
    else
      let attrAlt := fn.take (fn.length - 3) ++ strBytes "attr"
      if fs.contains attrAlt then .ok (some attrAlt)
      else .error (.ioError "Could not find texture attribute file.")

/-- `_parseTextureFile`: resolve the attribute file via
`_checkTextureFile`; the skip marker becomes the cached sentinel string
"File could not be found."; otherwise the attribute file is opened and
decoded (the flat field-by-field attribute decode, source lines
3202-3380, is not inspected by any claim and is abstracted to a `parsed`
marker carrying the attribute path). -/
def parseTextureFile (fs : List (List Nat)) (skip : Bool)
    (dbFile : Option (List Nat)) (fileName? : Option (List Nat)) :
    Except Err TexResult := do
  if fileName?.isNone then .error (.ioError "No texture filename specified.")
  else do
    let r ← checkTextureFile fs skip dbFile fileName?
    match r with
    | Option.none => .ok .sentinelMissing
    | some attr => .ok (.parsed attr)

/-- `_opTexturePalette` (opcode 64): read the 200-byte file name, the
pattern index and the palette location, then populate the shared
`External` cache keyed by the raw file name - the root document uses its
own cache, a child document its parent's; in the model both are the
single shared cache in the state - and finally add the record to the
tree and the texture list. -/
def opTexturePalette (fs : List (List Nat)) (skip : Bool)
    (dbFile : Option (List Nat)) (isRoot : Bool) (s : OFState) (c : Cursor) :
    Except Err (OFState × Cursor) := do
  let (fname, c) ← readString 200 c
  let (patternIdx, c) ← readUInt c
  let (loc0, c) ← readUInt c
  let (loc1, c) ← readUInt c
  let newObj := Node.obj
    [("Datatype", .str (strBytes "TexturePalette")),
     ("Filename", .str fname),
     ("TexturePatternIdx", .nat patternIdx),
     ("LocationInTexturePalette", .raw [loc0, loc1])]
  let s ←
    if isRoot then
      if (s.external.find? (fun e => e.1 == fname)).isNone then do
        let t ← parseTextureFile fs skip dbFile (some fname)
        pure { s with external := s.external ++ [(fname, ExtVal.tex t)] }
      else pure s
    else
      if (s.external.find? (fun e => e.1 == fname)).isNone then do
        let t ← parseTextureFile fs skip dbFile (some fname)
        pure { s with external := s.external ++ [(fname, ExtVal.tex t)] }
      else pure s
  let s ← addObject s newObj
  .ok ({ s with textures := s.textures ++ [newObj] }, c)

/-- `_opExtRef` (opcode 63): read the 200-byte path, flags and
bounding-box field, clean the path, and resolve it through the shared
`External` cache.  `parseExt` abstracts the recursive
`OpenFlight(fileName).ReadFile()` sub-parse (whose `Records` are what
the source stores).  In the root document a cache miss parses and stores
under the cleaned path; in a child document the store is
`self._parent.Records['External'][filename] = extdb.Records`, where
`filename` is an undefined name (a typo for `fileName`), so after the
sub-parse completes the store raises NameError and the cache is never
updated. -/
def opExtRef (fs : List (List Nat)) (dbFile : Option (List Nat))
    (parseExt : List Nat → ExtVal) (isRoot : Bool) (s : OFState)
    (c : Cursor) : Except Err (OFState × Cursor) := do
  let (asciiPath, c) ← readString 200 c
  let c ← fseekCur 4 c
  let (flags, c) ← readUInt c
  let (bbox, c) ← readUShort c
  let c ← fseekCur 2 c
  let newObj := Node.obj
    [("Datatype", .str (strBytes "ExternalReference")),
     ("ASCIIPath", .str asciiPath),
     ("Flags", .nat flags),
     ("BoundingBox", .nat bbox)]
  -- `self._cleanExternalFilename(newObject['ASCIIPath'])`: the call uses
  -- the default isTexture=True.
  let fn ← cleanExternalFilename fs dbFile true (some asciiPath)
  let s ←
    if isRoot then
      if (s.external.find? (fun e => e.1 == fn)).isNone then
        -- extdb = OpenFlight(fileName, parent=self); extdb.ReadFile()
        pure { s with external := s.external ++ [(fn, parseExt fn)] }
      else pure s
    else
      if (s.external.find? (fun e => e.1 == fn)).isNone then
        -- extdb = OpenFlight(fileName, parent=self._parent);
        -- extdb.ReadFile() completes (ReadFile traps its own errors), then
        -- `self._parent.Records['External'][filename] = extdb.Records`
        -- raises NameError: `filename` is undefined.
        .error (.nameError "filename")
      else pure s
  let s ← addObject s newObj
  .ok (s, c)

/-- A fresh document state as `__init__` leaves it: the tree root is the
single empty heap cell, all stacks empty, `Tree` mode, previous opcode 0.
The format revision is only consulted by decoders this file does not
exercise on it; a modern value stands in. -/
def initState : OFState :=
  { heap := [[]], instances := [], external := [], textures := [],
    recordType := .tree, treeStack := [], instanceStack := [],
    previousOpCode := 0, fileFormat := 1600 }

/-- Reading an exact block: if the bytes at the cursor start with `b`,
then `fread b.length` returns `b` and advances past it. -/
theorem fread_exact (c : Cursor) (b t : List Nat)
    (h : c.data.drop c.pos = b ++ t) :
    fread b.length c = (b, ⟨c.data, c.pos + b.length⟩) := by
  unfold fread
  rw [h, List.take_left]

/-- Advancing the cursor past a read block exposes the tail. -/
theorem drop_advance (c : Cursor) (b t : List Nat)
    (h : c.data.drop c.pos = b ++ t) :
    c.data.drop (c.pos + b.length) = t := by
  rw [← List.drop_drop, h, List.drop_left]

/-- Decode rule stated by the spec, for comparison with the source
implementation: remove only the trailing run of NUL padding bytes. -/
def specTrimTrailingNul (l : List Nat) : List Nat :=
  (l.reverse.dropWhile (· == 0)).reverse

/-- `pyRemoveNul` removes every NUL byte and keeps everything else. -/
theorem pyRemoveNul_eq_filter (l : List Nat) :
    pyRemoveNul l = l.filter (fun b => b ≠ 0) := by
  induction l with
  | nil => rfl
  | cons b r ih =>
    by_cases hb : b = 0 <;> simp [pyRemoveNul, hb, ih]

/-- Claim C6 counterexample: on the field bytes `[97, 0, 98, 0]`
(`"a\x00b\x00"`) the decoder yields `[97, 98]` (`"ab"`): the embedded
NUL is removed, where the claim requires `[97, 0, 98]` (only the
trailing padding trimmed). -/
theorem c6_counterexample :
    (readString 4 ⟨[97, 0, 98, 0], 0⟩).map Prod.fst = .ok [97, 98] ∧
    specTrimTrailingNul [97, 0, 98, 0] = [97, 0, 98] ∧
    ([97, 98] : List Nat) ≠ [97, 0, 98] := by
  refine ⟨rfl, rfl, by decide⟩

/-- Claim C6 (amended): `_readString` removes every NUL byte of the
fixed-length field - trailing padding and embedded NULs alike - and
preserves all non-NUL bytes in order; on a field whose NULs are all
trailing padding this coincides with trimming the padding. -/
theorem c6_readString_removes_all_nuls :
    (∀ (field tail : List Nat),
      readString field.length ⟨field ++ tail, 0⟩ =
        .ok (field.filter (fun b => b ≠ 0), ⟨field ++ tail, field.length⟩)) ∧
    (∀ (core : List Nat) (n : Nat), (∀ b ∈ core, b ≠ 0) →
      pyRemoveNul (core ++ List.replicate n 0) = core) := by
  constructor
  · intro field tail
    have h : fread field.length ⟨field ++ tail, 0⟩ =
        (field, ⟨field ++ tail, 0 + field.length⟩) :=
      fread_exact ⟨field ++ tail, 0⟩ field tail (by simp)
    unfold readString
    rw [h]
    simp [pyRemoveNul_eq_filter]
  · intro core n hcore
    induction core with
    | nil =>
      simp only [List.nil_append]
      induction n with
      | zero => rfl
      | succ m ih => simpa [List.replicate_succ, pyRemoveNul] using ih
    | cons b r ih =>
      have hb : b ≠ 0 := hcore b (by simp)
      simp only [List.cons_append, pyRemoveNul, hb, if_neg hb]
      exact congrArg (b :: ·) (ih (fun x hx => hcore x (by simp [hx])))

/-- Claim C6 witness: a NUL-padded field with no embedded NULs decodes to
its non-padding bytes, through the amended theorem. -/
theorem c6_witness :
    pyRemoveNul ([104, 105] ++ List.replicate 3 0) = [104, 105] :=
  c6_readString_removes_all_nuls.2 [104, 105] 3 (by decide)

/-- Claim C1 (code bug): the registry declares the level-of-detail record
(opcode 73) at a fixed total size of 80 bytes, but its decoder can never
consume the 76-byte payload: after reading the 8-byte ASCII ID it
evaluates `self.read.seek(4, os.SEEK_CUR)` and the object has no
attribute `read` (the code elsewhere uses `self._skip`), so every
level-of-detail record raises AttributeError instead of advancing the
cursor by the declared size. -/
theorem c1_lod_decoder_raises :
    opCodeEntry OpCodes 73 = some (some 80, "level of detail") ∧
    opLoD initState ⟨List.replicate 76 0, 0⟩ = .error (.attributeError "read") := by
  exact ⟨rfl, rfl⟩

/-- Claim C4 (amended): in `Tree` mode a successful Push deepens the tree
stack by exactly 1, a Pop at tree depth 0 always fails with the
empty-stack error, and a successful Pop shallows the tree stack by
exactly 1.  In `Instances` mode a successful Push deepens the instance
stack by exactly 1 and a Pop on an empty instance stack fails
(IndexError); a successful Pop either shallows the instance stack by
exactly 1, or - exactly when it was at depth 2 - clears it to depth 0
and switches back to `Tree` mode.  Neither depth ever goes below 0. -/
theorem c4_push_pop_depth :
    (∀ s c s' c', s.recordType = RecType.tree → opPush s c = .ok (s', c') →
       s'.treeStack.length = s.treeStack.length + 1) ∧
    (∀ s c, s.recordType = RecType.tree → s.treeStack = [] →
       opPop s c = .error (.exc "Tree stack is empty: nothing to pop.")) ∧
    (∀ s c s' c', s.recordType = RecType.tree → opPop s c = .ok (s', c') →
       s'.treeStack.length + 1 = s.treeStack.length) ∧
    (∀ s c s' c', s.recordType = RecType.instances → opPush s c = .ok (s', c') →
       s'.instanceStack.length = s.instanceStack.length + 1) ∧
    (∀ s c, s.recordType = RecType.instances → s.instanceStack = [] →
       opPop s c = .error Err.indexError) ∧
    (∀ s c s' c', s.recordType = RecType.instances → opPop s c = .ok (s', c') →
       (s'.instanceStack.length + 1 = s.instanceStack.length ∧
        s'.recordType = RecType.instances) ∨
       (s.instanceStack.length = 2 ∧ s'.instanceStack = [] ∧
        s'.recordType = RecType.tree)) := by
  refine ⟨?_, ?_, ?_, ?_, ?_, ?_⟩
  · intro s c s' c' hmode h
    rcases hw : walk s.heap 0 s.treeStack with _ | a
    · simp [opPush, hmode, hw] at h
    · rcases hc : s.heap[a]? with _ | cell
      · simp [opPush, hmode, hw, hc] at h
      · simp only [opPush, hmode, hw, hc, Except.ok.injEq, Prod.mk.injEq] at h
        rw [← h.1]
        simp
  · intro s c hmode hempty
    unfold opPop
    rw [hmode, hempty]
    rfl
  · intro s c s' c' hmode h
    simp only [opPop, hmode] at h
    by_cases hz : s.treeStack.length = 0
    · rw [if_pos hz] at h
      exact absurd h (by simp)
    · rw [if_neg hz] at h
      simp only [Except.ok.injEq, Prod.mk.injEq] at h
      rw [← h.1]
      simp only [List.length_dropLast]
      omega
  · intro s c s' c' hmode h
    rcases his : s.instanceStack with _ | ⟨id, rest⟩
    · simp [opPush, hmode, his] at h
    · rcases hl : alookup id s.instances with _ | a0
      · simp [opPush, hmode, his, hl] at h
      · rcases hw : walk s.heap a0 rest with _ | a
        · simp [opPush, hmode, his, hl, hw] at h
        · rcases hc : s.heap[a]? with _ | cell
          · simp [opPush, hmode, his, hl, hw, hc] at h
          · simp only [opPush, hmode, his, hl, hw, hc, Except.ok.injEq,
              Prod.mk.injEq] at h
            rw [← h.1]
            simp
  · intro s c hmode hempty
    unfold opPop
    rw [hmode, hempty]
    rfl
  · intro s c s' c' hmode h
    simp only [opPop, hmode] at h
    by_cases he : s.instanceStack.isEmpty
    · rw [if_pos he] at h
      exact absurd h (by simp)
    · rw [if_neg he] at h
      have hne : s.instanceStack ≠ [] := by
        intro hcon
        rw [hcon] at he
        exact he rfl
      have hpos : 0 < s.instanceStack.length := List.length_pos.mpr hne
      by_cases h1 : s.instanceStack.dropLast.length = 1
      · rw [if_pos h1] at h
        simp only [Except.ok.injEq, Prod.mk.injEq] at h
        refine Or.inr ⟨?_, by rw [← h.1], by rw [← h.1]⟩
        rw [List.length_dropLast] at h1
        omega
      · rw [if_neg h1] at h
        simp only [Except.ok.injEq, Prod.mk.injEq] at h
        refine Or.inl ⟨?_, by rw [← h.1]⟩
        rw [← h.1]
        simp only [List.length_dropLast]
        omega

/-- A state in `Instances` mode at instance-stack depth 2, as produced by
an instance definition followed by a Push. -/
def c4CexState : OFState :=
  { heap := [[], []], instances := [(7, 1)], external := [], textures := [],
    recordType := .instances, treeStack := [], instanceStack := [7, 0],
    previousOpCode := 0, fileFormat := 1600 }

/-- Claim C4 counterexample: a Pop issued in `Instances` mode at active
stack depth 2 succeeds and leaves the active stack at depth 0 (clearing
the instance stack and switching to `Tree` mode) - a decrease of 2, not
of exactly 1 as the claim states. -/
theorem c4_counterexample :
    (opPop c4CexState ⟨[], 0⟩).map
        (fun p => (p.1.instanceStack.length, p.1.recordType)) =
      .ok (0, RecType.tree) ∧
    c4CexState.instanceStack.length = 2 := by
  exact ⟨rfl, rfl⟩

/-- The state after a successful Push from `initState`. -/
def c4PushedState : OFState :=
  { initState with treeStack := [0], heap := [[Node.listRef 1], []] }

/-- A state in `Instances` mode at instance-stack depth 1 (as right after
an instance definition). -/
def c4InstState : OFState :=
  { heap := [[], []], instances := [(7, 1)], external := [], textures := [],
    recordType := .instances, treeStack := [], instanceStack := [7],
    previousOpCode := 0, fileFormat := 1600 }

/-- The state after a successful Push from `c4InstState`. -/
def c4InstPushedState : OFState :=
  { c4InstState with
      instanceStack := [7, 0],
      heap := [[], [Node.listRef 2], []] }

/-- A state in `Instances` mode with an empty instance stack. -/
def c4InstEmptyState : OFState :=
  { c4InstState with instanceStack := [] }

/-- Claim C4 witness: the amended theorem applied at concrete states:
Push from the empty tree, Pop on the empty tree stack, Pop undoing that
Push, Push inside an instance, Pop on an empty instance stack, and the
depth-2 instance Pop. -/
theorem c4_witness :
    c4PushedState.treeStack.length = initState.treeStack.length + 1 ∧
    opPop initState ⟨[], 0⟩ = .error (.exc "Tree stack is empty: nothing to pop.") ∧
    ({ initState with
         treeStack := ([] : List Nat),
         heap := [[Node.listRef 1], []] } : OFState).treeStack.length + 1 =
      c4PushedState.treeStack.length ∧
    c4InstPushedState.instanceStack.length = c4InstState.instanceStack.length + 1 ∧
    opPop c4InstEmptyState ⟨[], 0⟩ = .error Err.indexError ∧
    ((c4CexState.instanceStack.length = 2 ∧
      ({ c4CexState with
           recordType := RecType.tree,
           instanceStack := ([] : List Nat) } : OFState).instanceStack = [] ∧
      ({ c4CexState with
           recordType := RecType.tree,
           instanceStack := ([] : List Nat) } : OFState).recordType = RecType.tree) ∨
     (({ c4CexState with
           recordType := RecType.tree,
           instanceStack := ([] : List Nat) } : OFState).instanceStack.length + 1 =
        c4CexState.instanceStack.length ∧
      ({ c4CexState with
           recordType := RecType.tree,
           instanceStack := ([] : List Nat) } : OFState).recordType = RecType.instances)) := by
  refine ⟨?_, ?_, ?_, ?_, ?_, ?_⟩
  · exact c4_push_pop_depth.1 initState ⟨[], 0⟩ c4PushedState ⟨[], 0⟩ rfl rfl
  · exact c4_push_pop_depth.2.1 initState ⟨[], 0⟩ rfl rfl
  · exact c4_push_pop_depth.2.2.1 c4PushedState ⟨[], 0⟩ _ ⟨[], 0⟩ rfl rfl
  · exact c4_push_pop_depth.2.2.2.1 c4InstState ⟨[], 0⟩ c4InstPushedState ⟨[], 0⟩ rfl rfl
  · exact c4_push_pop_depth.2.2.2.2.1 c4InstEmptyState ⟨[], 0⟩ rfl rfl
  · exact (c4_push_pop_depth.2.2.2.2.2 c4CexState ⟨[], 0⟩ _ ⟨[], 0⟩ rfl rfl).symm

/-- Claim C5: decoding an instance reference whose 4-byte id bytes name a
previously defined instance id `k` appends, at the current insertion
cell, the node `Node.listRef a` where `a` is the very heap cell stored
under `Instances[k]` - the identical list object, not a copy: the heap
gains no new cell and no cell other than the insertion cell changes.
Consequently (last conjunct) any element later added to the instance's
cell is observed by dereferencing the appended node, in every future
heap. -/
theorem c5_instref_aliases (s : OFState) (b0 b1 b2 b3 : Nat) (t : List Nat)
    (c : Cursor) (k a d : Nat) (cell : List Node)
    (hc : c.data.drop c.pos = b0 :: b1 :: b2 :: b3 :: t)
    (hk : k = 256 * (256 * (256 * b0 + b1) + b2) + b3)
    (hik : alookup k s.instances = some a)
    (hd : insertionCell s = some d)
    (hcell : s.heap[d]? = some cell) :
    opInstRef s c =
      .ok ({ s with heap := s.heap.set d (cell ++ [Node.listRef a]) },
           ⟨c.data, c.pos + 4⟩) ∧
    (s.heap.set d (cell ++ [Node.listRef a])).length = s.heap.length ∧
    (∀ (h₂ : List (List Node)) (v : List Node), a < h₂.length →
      (h₂.set a v)[a]? = some v) := by
  subst hk
  have hread : readUInt c =
      .ok (256 * (256 * (256 * b0 + b1) + b2) + b3, ⟨c.data, c.pos + 4⟩) := by
    unfold readUInt fread
    rw [hc]
    rfl
  refine ⟨?_, by simp, fun h₂ v hlt => List.getElem?_set_self hlt⟩
  unfold opInstRef
  rw [hread]
  show (match alookup _ s.instances with
        | Option.none => Except.error (Err.exc "Could not find an instance to reference")
        | some a => do
            let s' ← addObject s (Node.listRef a)
            Except.ok (s', (⟨c.data, c.pos + 4⟩ : Cursor))) = _
  rw [hik]
  show (do
        let s' ← addObject s (Node.listRef a)
        Except.ok (s', (⟨c.data, c.pos + 4⟩ : Cursor))) = _
  simp only [addObject, hd, hcell]
  rfl

/-- A state with one instance (id 7) already defined at heap cell 1, at
the top level of the tree. -/
def c5State : OFState :=
  { heap := [[], []], instances := [(7, 1)], external := [], textures := [],
    recordType := .tree, treeStack := [], instanceStack := [],
    previousOpCode := 0, fileFormat := 1600 }

/-- Claim C5 witness: referencing instance 7 appends the alias
`Node.listRef 1` - the address stored under `Instances[7]` - to the tree
root, via the theorem. -/
theorem c5_witness :
    opInstRef c5State ⟨[0, 0, 0, 7], 0⟩ =
      .ok ({ c5State with heap := [[Node.listRef 1], []] },
           ⟨[0, 0, 0, 7], 4⟩) :=
  (c5_instref_aliases c5State 0 0 0 7 [] ⟨[0, 0, 0, 7], 0⟩ 7 1 0 [] rfl
    (by decide) rfl rfl rfl).1

/-- Claim C10: whenever the dispatch loop reads opcode 1 (wire bytes 0,
1) - at any position, in any state, under any registry table and with
any following bytes - the pass aborts with an error and the decoder
state is untouched: either the length read fails, or the declared length
mismatches the registry's header size, or `_opHeader` itself raises
"Another header found in file.".  A second header is never decoded as
data nor skipped. -/
theorem c10_second_header_aborts (tbl : List (Int × Option Nat × String))
    (fuel : Nat) (s : OFState) (pre rest : List Nat) :
    ∃ err,
      (runLoop tbl (fuel + 1) s ⟨pre ++ 0 :: 1 :: rest, pre.length⟩).1 =
        PassOutcome.aborted err ∧
      (runLoop tbl (fuel + 1) s ⟨pre ++ 0 :: 1 :: rest, pre.length⟩).2.1 = s := by
  have hdrop : (pre ++ 0 :: 1 :: rest).drop pre.length = 0 :: 1 :: rest :=
    List.drop_left pre _
  have hfread : fread 2 ⟨pre ++ 0 :: 1 :: rest, pre.length⟩ =
      ([0, 1], ⟨pre ++ 0 :: 1 :: rest, pre.length + 2⟩) := by
    unfold fread
    simp only [hdrop]
    rfl
  have hop : toSigned16 (256 * 0 + 1) = 1 := by decide
  have hobs : ObsoleteOpCodes.contains (1 : Int) = false := by decide
  have hdec : ∀ (s₀ : OFState) (c₀ : Cursor),
      opDecoder tbl 1 s₀ c₀ = .error (.exc "Another header found in file.") :=
    fun _ _ => rfl
  simp only [runLoop, hfread, hop, hobs, Bool.false_eq_true, if_false]
  rcases hent : opCodeEntry tbl 1 with _ | ⟨sz, name⟩ <;> simp only [hent]
  · exact ⟨_, rfl, by simp⟩
  · rcases sz with _ | n
    · -- variable-size entry: the decoder for opcode 1 raises at once
      simp only [hdec]
      exact ⟨_, rfl, by simp⟩
    · rcases hrd : readUShort ⟨pre ++ 0 :: 1 :: rest, pre.length + 2⟩
          with e | ⟨len, c2⟩ <;> simp only [hrd]
      · exact ⟨_, rfl, by simp⟩
      · by_cases hlen : len = n
        · rw [if_neg (not_not_intro hlen)]
          simp only [hdec]
          exact ⟨_, rfl, by simp⟩
        · rw [if_pos hlen]
          exact ⟨_, rfl, by simp⟩

/-- Claim C2 (amended): every fatal error raised during the dispatch
pass aborts the pass, the `finally` block closes the file handle before
`ReadFile` returns, and the error is recorded in the instance attribute
`e`; but `ReadFile` itself catches the error, prints it, and returns
normally - no error propagates to the caller, who must inspect `e` (or
the absence of a complete parse) to distinguish failure from success. -/
theorem c2_readfile_swallows_errors (tbl : List (Int × Option Nat × String))
    (fuel : Nat) (s : OFState) (c : Cursor) :
    (ReadFileModel tbl fuel s c).handleClosed = true ∧
    (ReadFileModel tbl fuel s c).returnedNormally = true ∧
    (ReadFileModel tbl fuel s c).raised = Option.none ∧
    (ReadFileModel tbl fuel s c).e.isSome =
      ! (ReadFileModel tbl fuel s c).passFinished := by
  unfold ReadFileModel
  rcases runLoop tbl fuel s c with ⟨out, s', c'⟩
  cases out <;> exact ⟨rfl, rfl, rfl, rfl⟩

/-- Claim C2 counterexample: a post-header stream holding only the
unknown opcode 999 (scenario E).  The pass aborts and the unknown-opcode
error is stored in `self.e`, but nothing is raised to the caller:
`ReadFile` returns normally, exactly as for a successful parse, contrary
to the claim that a structured error propagates to the caller. -/
theorem c2_counterexample :
    (ReadFileModel OpCodes 2 initState ⟨[3, 231], 0⟩).raised = Option.none ∧
    (ReadFileModel OpCodes 2 initState ⟨[3, 231], 0⟩).returnedNormally = true ∧
    (ReadFileModel OpCodes 2 initState ⟨[3, 231], 0⟩).handleClosed = true ∧
    (ReadFileModel OpCodes 2 initState ⟨[3, 231], 0⟩).e =
      some (.exc "Unable to continue OpenFlight Opcode not recognised.") := by
  exact ⟨rfl, rfl, rfl, rfl⟩

/-- The 272 bytes following the 4-byte (record type, record length)
prologue of a header record: an all-zero revision-1510 header satisfying
every enumerated check (unit multiplier 1, units metres, projection flat
earth, vertex storage type 1, ellipsoid WGS 1984). -/
def hdrRest : List Nat :=
  List.replicate 8 0 ++ [0, 0, 5, 230] ++ List.replicate 44 0 ++
  [0, 1, 0, 0] ++ List.replicate 60 0 ++ [0, 0, 0, 1] ++
  List.replicate 148 0

/-- Claim C7 counterexample: a file whose first record carries the
expected header signature (type 1) but declares record length 100 - not
the recognised header size 324 - is accepted by `_check_header` (the
length check in the source is commented out), contrary to the claim that
such a file always fails with NotThisFormat. -/
theorem c7_counterexample :
    (check_header ⟨[0, 1, 0, 100] ++ hdrRest, 0⟩).map (fun p => p.1.fileFormat) =
      .ok 1510 := by
  decide

/-- Claim C7 (amended): `_check_header` reads the declared record length
and discards it unconditionally - the declared-length validation is
disabled in the source - so validation continues identically for every
pair of length bytes; in particular the otherwise-valid header that
declares the unrecognised length 100 is accepted. -/
theorem c7_header_length_ignored :
    (∀ (l1 l2 : Nat) (rest : List Nat),
      check_header ⟨0 :: 1 :: l1 :: l2 :: rest, 0⟩ =
        check_header_body ⟨0 :: 1 :: l1 :: l2 :: rest, 4⟩) ∧
    (check_header_body ⟨[0, 1, 0, 100] ++ hdrRest, 4⟩).map
        (fun p => p.1.fileFormat) = .ok 1510 := by
  exact ⟨fun _ _ _ => rfl, by decide⟩

/-- Claim C9 counterexample: the texture file `t.png` exists but neither
`t.png.attr` nor `t.attr` does, and skip_missing_textures is enabled.
The claim requires a sentinel in the cache and a continuing parse, but
`_checkTextureFile` consults the flag only for a missing texture file:
the missing attribute file raises IOError regardless of the flag. -/
theorem c9_counterexample :
    parseTextureFile [strBytes "t.png"] true Option.none
        (some (strBytes "t.png")) =
      .error (.ioError "Could not find texture attribute file.") := by
  decide

set_option maxRecDepth 40000 in
/-- Claim C9 (amended): the skip-missing-textures flag governs a missing
texture image file (whose name survives path translation): with the flag
enabled the parse yields the sentinel - stored in the External cache by
the texture-palette decoder, which then continues - and with the flag
disabled the missing texture file is fatal.  A missing attribute file
for an existing texture file is fatal regardless of the flag. -/
theorem c9_skip_flag_behaviour (skip : Bool) :
    parseTextureFile [] skip Option.none (some (strBytes "tex0")) =
      (if skip then .ok TexResult.sentinelMissing
       else .error (.ioError "Could not find texture file.")) ∧
    parseTextureFile [strBytes "t.png"] skip Option.none
        (some (strBytes "t.png")) =
      .error (.ioError "Could not find texture attribute file.") ∧
    (opTexturePalette [] true Option.none true initState
        ⟨strBytes "tex0" ++ List.replicate 196 0 ++ List.replicate 12 0, 0⟩).map
        (fun p => p.1.external) =
      .ok [(strBytes "tex0", ExtVal.tex TexResult.sentinelMissing)] := by
  cases skip <;> exact ⟨by decide, by decide, by decide⟩

/-- The 212-byte payload of an external-reference record naming the file
`x`: the 200-byte NUL-padded path, 4 reserved bytes, the 4-byte flags,
the 2-byte bounding-box field and 2 reserved bytes. -/
def c8Payload : List Nat :=
  strBytes "x" ++ List.replicate 199 0 ++ List.replicate 12 0

set_option maxRecDepth 40000 in
/-- Claim C8 (code bug): resolving an external reference to the existing
file `x` on a cache miss stores the parsed result under the cleaned path
in the root document, exactly as the claim says; but in a child document
(parent set) the same cache miss aborts with NameError after the
sub-parse, because the store uses the undefined name `filename` (a typo
for `fileName`), so the claimed store into the shared root cache never
happens there. -/
theorem c8_child_extref_nameerror :
    (opExtRef [strBytes "x"] Option.none (fun p => ExtVal.subDb p) true
        initState ⟨c8Payload, 0⟩).map (fun p => p.1.external) =
      .ok [(strBytes "x", ExtVal.subDb (strBytes "x"))] ∧
    opExtRef [strBytes "x"] Option.none (fun p => ExtVal.subDb p) false
        initState ⟨c8Payload, 0⟩ =
      .error (.nameError "filename") := by
  exact ⟨by decide, by decide⟩

/-- Big-endian 2-byte wire encoding of a 16-bit value. -/
def enc16 (n : Nat) : List Nat := [n / 256, n % 256]

/-- Wire form of one continuation record (opcode 23, length, body). -/
def encCont (r : Nat × List Nat) : List Nat := enc16 23 ++ enc16 r.1 ++ r.2

/-- Bind on a successful `Except` computation. -/
theorem ebind_ok {α β : Type} (a : α) (f : α → Except Err β) :
    (Except.ok a >>= f) = f a := rfl

/-- `readUShort` on a cursor whose next two bytes encode `v`. -/
theorem readUShort_at (c : Cursor) (v : Nat) (t : List Nat)
    (h : c.data.drop c.pos = enc16 v ++ t) :
    readUShort c = .ok (v, ⟨c.data, c.pos + 2⟩) := by
  unfold readUShort fread
  rw [h]
  simp [enc16, Nat.div_add_mod]

/-- The cursor tail after reading a 2-byte encoded value. -/
theorem drop_advance2 (c : Cursor) (v : Nat) (t : List Nat)
    (h : c.data.drop c.pos = enc16 v ++ t) :
    c.data.drop (c.pos + 2) = t := by
  have h2 := drop_advance c (enc16 v) t h
  simpa [enc16] using h2

/-- Reading a record body of `L - 4` bytes (for `L ≥ 4`) when exactly
those bytes come next. -/
theorem freadInt_body (c : Cursor) (L : Nat) (b t : List Nat)
    (hL : 4 ≤ L) (hb : b.length = L - 4)
    (h : c.data.drop c.pos = b ++ t) :
    freadInt ((L : Int) - 4) c = (b, ⟨c.data, c.pos + b.length⟩) := by
  have hnn : ¬ ((L : Int) - 4 < 0) := by omega
  have htn : ((L : Int) - 4).toNat = b.length := by omega
  unfold freadInt
  rw [if_neg hnn, htn]
  exact fread_exact c b t h

/-- The 2-byte rewind `self._skip(-2)` that un-reads the lookahead. -/
theorem fseek_back2 (d : List Nat) (p : Nat) :
    fseekCur (-2) ⟨d, p + 2⟩ = .ok ⟨d, p⟩ := by
  simp only [fseekCur]
  have h1 : ¬ (((p + 2 : Nat) : Int) + (-2) < 0) := by omega
  rw [if_neg h1]
  have h2 : (((p + 2 : Nat) : Int) + (-2)).toNat = p := by omega
  rw [h2]

/-- Each encoded continuation record occupies at least its 4-byte
header, so the encoded chain is at least as long as the record count. -/
theorem encCont_flatten_ge (l : List (Nat × List Nat)) :
    l.length ≤ ((l.map encCont).flatten).length := by
  induction l with
  | nil => simp
  | cons hd tl ih =>
    simp only [List.map_cons, List.flatten_cons, List.length_append,
      List.length_cons]
    have h1 : 1 ≤ (encCont hd).length := by simp [encCont, enc16]
    omega

/-- The reassembled continuation bodies have total length equal to the
sum of (declared length − 4) over the chain. -/
theorem flattensnd_length (l : List (Nat × List Nat))
    (h : ∀ r ∈ l, r.2.length = r.1 - 4) :
    ((l.map Prod.snd).flatten).length = (l.map (fun r => r.1 - 4)).sum := by
  induction l with
  | nil => rfl
  | cons hd tl ih =>
    simp only [List.map_cons, List.flatten_cons, List.length_append,
      List.sum_cons]
    rw [h hd (by simp), ih (fun r hr => h r (by simp [hr]))]

/-- The while-loop of `_readChunk` over an encoded chain of `n`
continuation records followed by a non-continuation opcode: it appends
exactly the continuation bodies and leaves the position at the start of
the next record (the 2-byte peek un-read), given fuel beyond the record
count. -/
theorem readChunkLoop_spec (conts : List (Nat × List Nat)) :
    ∀ (fuel : Nat) (acc : List Nat) (c : Cursor) (n0 n1 : Nat) (t : List Nat),
      conts.length < fuel →
      (∀ r ∈ conts, r.2.length = r.1 - 4 ∧ 4 ≤ r.1) →
      c.data.drop c.pos = (conts.map encCont).flatten ++ n0 :: n1 :: t →
      256 * n0 + n1 ≠ 23 →
      readChunkLoop fuel acc c =
        .ok (acc ++ (conts.map Prod.snd).flatten,
             ⟨c.data, c.pos + ((conts.map encCont).flatten).length⟩) := by
  induction conts with
  | nil =>
    intro fuel acc c n0 n1 t hfuel _ hdata hne
    cases fuel with
    | zero => exact absurd hfuel (Nat.not_lt_zero _)
    | succ fuel =>
      rw [List.map_nil, List.flatten_nil, List.nil_append] at hdata
      have hrd : readUShort c = .ok (256 * n0 + n1, ⟨c.data, c.pos + 2⟩) := by
        unfold readUShort fread
        rw [hdata]
        rfl
      simp only [readChunkLoop, hrd, ebind_ok, if_neg hne, fseek_back2,
        List.map_nil, List.flatten_nil, List.append_nil, List.length_nil,
        Nat.add_zero]
  | cons hd cs ih =>
    intro fuel acc c n0 n1 t hfuel hwf hdata hne
    obtain ⟨L, b⟩ := hd
    cases fuel with
    | zero => exact absurd hfuel (Nat.not_lt_zero _)
    | succ fuel =>
      have hL4 : 4 ≤ L := (hwf (L, b) (by simp)).2
      have hbl : b.length = L - 4 := (hwf (L, b) (by simp)).1
      have hd1 : c.data.drop c.pos =
          enc16 23 ++ (enc16 L ++ (b ++ ((cs.map encCont).flatten ++ n0 :: n1 :: t))) := by
        rw [hdata, List.map_cons, List.flatten_cons]
        simp only [encCont, List.append_assoc]
      have hrd1 : readUShort c = .ok (23, ⟨c.data, c.pos + 2⟩) :=
        readUShort_at c 23 _ hd1
      have hd2 : c.data.drop (c.pos + 2) =
          enc16 L ++ (b ++ ((cs.map encCont).flatten ++ n0 :: n1 :: t)) :=
        drop_advance2 c 23 _ hd1
      have hrd2 : readUShort ⟨c.data, c.pos + 2⟩ =
          .ok (L, ⟨c.data, c.pos + 2 + 2⟩) :=
        readUShort_at ⟨c.data, c.pos + 2⟩ L _ hd2
      have hd3 : c.data.drop (c.pos + 2 + 2) =
          b ++ ((cs.map encCont).flatten ++ n0 :: n1 :: t) :=
        drop_advance2 ⟨c.data, c.pos + 2⟩ L _ hd2
      have hfr : freadInt ((L : Int) - 4) ⟨c.data, c.pos + 2 + 2⟩ =
          (b, ⟨c.data, c.pos + 2 + 2 + b.length⟩) :=
        freadInt_body ⟨c.data, c.pos + 2 + 2⟩ L b _ hL4 hbl hd3
      have hd4 : c.data.drop (c.pos + 2 + 2 + b.length) =
          (cs.map encCont).flatten ++ n0 :: n1 :: t :=
        drop_advance ⟨c.data, c.pos + 2 + 2⟩ b _ hd3
      have hrec := ih fuel (acc ++ b) ⟨c.data, c.pos + 2 + 2 + b.length⟩
        n0 n1 t (by simpa using Nat.lt_of_succ_lt_succ hfuel)
        (fun r hr => hwf r (by simp [hr])) hd4 hne
      simp only [readChunkLoop, hrd1, ebind_ok, if_pos rfl, hrd2, hfr, hrec]
      have e1 : (acc ++ b) ++ (cs.map Prod.snd).flatten =
          acc ++ (((L, b) :: cs).map Prod.snd).flatten := by
        simp [List.append_assoc]
      have e2 : c.pos + 2 + 2 + b.length + ((cs.map encCont).flatten).length =
          c.pos + ((((L, b) :: cs)).map encCont).flatten.length := by
        simp only [List.map_cons, List.flatten_cons, List.length_append,
          encCont, enc16, List.length_cons, List.length_nil]
        omega
      rw [e1, e2]
      exact if_pos trivial

/-- Claim C3: for a chunked record - primary declared length `L0` with
its `L0 - 4` body bytes, followed by `n ≥ 0` continuation records each
with declared length and matching body, followed by the next real
record's opcode bytes - `_readChunk` reassembles exactly the primary
body concatenated with each continuation body, the reassembled length is
the sum of (declared length − 4) over the chain, and the stream position
on exit is exactly the start of the next real record: the 2-byte opcode
lookahead that ended the chain is un-read. -/
theorem c3_readChunk (pre body0 : List Nat) (L0 : Nat)
    (conts : List (Nat × List Nat)) (n0 n1 : Nat) (t : List Nat)
    (hL0 : 4 ≤ L0) (hb0 : body0.length = L0 - 4)
    (hc : ∀ r ∈ conts, r.2.length = r.1 - 4 ∧ 4 ≤ r.1)
    (hne : 256 * n0 + n1 ≠ 23) :
    readChunk ⟨pre ++ (enc16 L0 ++ (body0 ++
        ((conts.map encCont).flatten ++ n0 :: n1 :: t))), pre.length⟩ =
      .ok (body0 ++ (conts.map Prod.snd).flatten,
           ⟨pre ++ (enc16 L0 ++ (body0 ++
              ((conts.map encCont).flatten ++ n0 :: n1 :: t))),
            pre.length + 2 + body0.length +
              ((conts.map encCont).flatten).length⟩) ∧
    (body0 ++ (conts.map Prod.snd).flatten).length =
      (L0 - 4) + (conts.map (fun r => r.1 - 4)).sum := by
  constructor
  · set D := pre ++ (enc16 L0 ++ (body0 ++
      ((conts.map encCont).flatten ++ n0 :: n1 :: t))) with hDdef
    have hD : (⟨D, pre.length⟩ : Cursor).data.drop
        (⟨D, pre.length⟩ : Cursor).pos =
        enc16 L0 ++ (body0 ++ ((conts.map encCont).flatten ++ n0 :: n1 :: t)) := by
      rw [hDdef]
      exact List.drop_left pre _
    have hrdL0 := readUShort_at ⟨D, pre.length⟩ L0 _ hD
    have hd2 := drop_advance2 ⟨D, pre.length⟩ L0 _ hD
    have hfr := freadInt_body ⟨D, pre.length + 2⟩ L0 body0 _ hL0 hb0 hd2
    have hd3 := drop_advance (⟨D, pre.length + 2⟩ : Cursor) body0 _ hd2
    have hfuel : conts.length < D.length + 1 := by
      have h1 := encCont_flatten_ge conts
      rw [hDdef]
      simp only [List.length_append]
      omega
    have hloop := readChunkLoop_spec conts (D.length + 1) body0
      ⟨D, pre.length + 2 + body0.length⟩ n0 n1 t hfuel hc hd3 hne
    simp only [readChunk, hrdL0, ebind_ok, hfr, hloop]
  · rw [List.length_append, hb0,
      flattensnd_length conts (fun r hr => (hc r hr).1)]

/-- Claim C3 witness: a primary comment body of length 2 (declared
length 6) with one continuation of body length 1 (declared length 5),
followed by the opcode-11 lookahead: the chunk is the 3-byte
concatenation and the position is left at the start of the next record,
through the theorem. -/
theorem c3_witness :
    readChunk ⟨[0, 6] ++ (enc16 6 ++ ([9, 9] ++
        (([(5, [7])].map encCont).flatten ++ 0 :: 11 :: []))), 2⟩ =
      .ok ([9, 9] ++ ([(5, [7])].map Prod.snd).flatten,
           ⟨[0, 6] ++ (enc16 6 ++ ([9, 9] ++
              (([(5, [7])].map encCont).flatten ++ 0 :: 11 :: []))),
            2 + 2 + 2 + 5⟩) ∧
    (([9, 9] ++ ([(5, [7])].map Prod.snd).flatten) : List Nat).length =
      (6 - 4) + ([(5, [7])].map (fun r => r.1 - 4)).sum :=
  c3_readChunk [0, 6] [9, 9] 6 [(5, [7])] 0 11 [] (by decide) (by decide)
    (by decide) (by decide)

end OFlt
